import Mathlib

/-!
# Verification of the kubesec-webhook admission validators

Shallow embedding of the per-kind `Validate` methods of
`pkg/webhook/daemonset.go` (`daemonSetsValidator.Validate`,
`podValidator.Validate`), the v2 `deploymentValidator.Validate`,
and the legacy v1 `deploymentValidator.Validate` of
`pkg/webhook/deployment.go`.

Modelling conventions:
* The inbound `metav1.Object` is a record carrying the concrete Go type tag
  (what the type assertion `obj.(*T)` checks), the mutable `TypeMeta`
  field, the object name, and an opaque remainder of the object.
* The effectful collaborators (the YAML serializer, the buffered writer
  flush, the kubesec scan client, and `json.MarshalIndent`) are modelled by
  an environment `ScanEnv` that fixes the outcome of each call.
* Go's in-place mutation of the inbound object (`kObj.TypeMeta = ...`) is
  made explicit: `Validate` returns the final state of the object.
* Whether and with which serialized document the scan client was invoked is
  recorded in the `scanned` field of the output (`none` = never called).
* Logging calls have no observable effect on the verdict and are omitted.
-/

/-- Go `metav1.TypeMeta`: the `Kind` / `APIVersion` header pair. -/
structure TypeMeta where
  Kind : String
  APIVersion : String
deriving DecidableEq, Repr

/-- The concrete Go type behind the `metav1.Object` interface value, as
tested by the type assertions `obj.(*v1.Pod)`, `obj.(*appsv1.Deployment)`,
`obj.(*appsv1.DaemonSet)` and `obj.(*extensionsv1beta1.Deployment)`. -/
inductive GoType where
  | pod
  | deployment
  | daemonSet
  | deploymentExtV1beta1
  | other
deriving DecidableEq, Repr

/-- The inbound workload object: concrete type tag, its (mutable)
`TypeMeta`, its `Name`, and the rest of its fields kept opaque. -/
structure K8sObject where
  goType : GoType
  typeMeta : TypeMeta
  Name : String
  rest : String
deriving DecidableEq, Repr

/-- The canonical serialized form produced by the k8s YAML serializer:
the `kind` / `apiVersion` headers come from the object's `TypeMeta`, the
body is a deterministic function of the remaining content. -/
structure SerializedResource where
  kind : String
  apiVersion : String
  body : String
deriving DecidableEq, Repr

/-- `serializer.Encode(kObj, writer)`: deterministic serialization of the
typed object, embedding its `TypeMeta` as the document headers. -/
def serializeObj (o : K8sObject) : SerializedResource :=
  { kind := o.typeMeta.Kind
    apiVersion := o.typeMeta.APIVersion
    body := o.Name ++ o.rest }

/-- One kubesec scan result entry: `Score` and the embedded `Error`
string (`""` = no error). Advisory findings do not affect the verdict and
are folded into the opaque pretty-printed text. -/
structure ScoreResult where
  Score : Int
  Error : String
deriving DecidableEq, Repr

/-- `validating.ValidatorResult`: the admission verdict. -/
structure ValidatorResult where
  Valid : Bool
  Message : String := ""
deriving DecidableEq, Repr

/-- Fixed outcomes of the effectful collaborators for one `Validate` call:
whether `serializer.Encode` fails, whether `writer.Flush` fails, what the
v2 scan client (`ScanDefinition`, returning a result list) and the v1 scan
client (returning a single result) answer for a given serialized document,
and whether / how `json.MarshalIndent` pretty-prints. -/
structure ScanEnv where
  encodeFails : Bool
  flushFails : Bool
  scan : SerializedResource → Except String (List ScoreResult)
  scanV1 : SerializedResource → Except String ScoreResult
  prettyFails : Bool
  pretty : List ScoreResult → String
  prettyV1 : ScoreResult → String

/-- Output of a v2 `Validate` call: the final state of the inbound object,
the verdict, the Go `error` return value, and the serialized document the
scan client was invoked with (`none` when it was never invoked). -/
structure ValidateOut where
  obj : K8sObject
  result : ValidatorResult
  err : Option String
  scanned : Option SerializedResource
deriving Repr

/-- `podValidator.Validate` (pkg/webhook/daemonset.go, v2 pattern):
type-assert `*v1.Pod`, stamp `TypeMeta{Kind: "Pod", APIVersion: "v1"}`,
serialize, flush, scan, require exactly one result with empty `Error`,
pretty-print, and deny only when `result[0].Score < d.minScore`. -/
def podValidator.Validate (minScore : Int) (obj : K8sObject) (env : ScanEnv) :
    ValidateOut :=
  if obj.goType ≠ GoType.pod then
    ⟨obj, ⟨true, ""⟩, none, none⟩
  else
    let kObj := { obj with typeMeta := ⟨"Pod", "v1"⟩ }
    if env.encodeFails then ⟨kObj, ⟨true, ""⟩, none, none⟩
    else if env.flushFails then ⟨kObj, ⟨true, ""⟩, none, none⟩
    else
      let buffer := serializeObj kObj
      match env.scan buffer with
      | Except.error _ => ⟨kObj, ⟨true, ""⟩, none, some buffer⟩
      | Except.ok result =>
        match result with
        | [r] =>
          if r.Error ≠ "" then ⟨kObj, ⟨true, ""⟩, none, some buffer⟩
          else if env.prettyFails then ⟨kObj, ⟨true, ""⟩, none, some buffer⟩
          else
            let jq := env.pretty result
            if r.Score < minScore then
              ⟨kObj,
               ⟨false,
                kObj.Name ++ " score is " ++ toString r.Score ++
                  ", minimum accepted score is " ++ toString minScore ++
                  "\nScan Result:\n" ++ jq⟩,
               none, some buffer⟩
            else ⟨kObj, ⟨true, ""⟩, none, some buffer⟩
        | _ => ⟨kObj, ⟨true, ""⟩, none, some buffer⟩

/-- `deploymentValidator.Validate` (v2 pattern): type-assert
`*appsv1.Deployment`, stamp `TypeMeta{Kind: "Deployment", APIVersion:
"apps/v1"}`, then the same pipeline; the denial message reads
`", deployment minimum accepted score is "`. -/
def deploymentValidator.Validate (minScore : Int) (obj : K8sObject)
    (env : ScanEnv) : ValidateOut :=
  if obj.goType ≠ GoType.deployment then
    ⟨obj, ⟨true, ""⟩, none, none⟩
  else
    let kObj := { obj with typeMeta := ⟨"Deployment", "apps/v1"⟩ }
    if env.encodeFails then ⟨kObj, ⟨true, ""⟩, none, none⟩
    else if env.flushFails then ⟨kObj, ⟨true, ""⟩, none, none⟩
    else
      let buffer := serializeObj kObj
      match env.scan buffer with
      | Except.error _ => ⟨kObj, ⟨true, ""⟩, none, some buffer⟩
      | Except.ok result =>
        match result with
        | [r] =>
          if r.Error ≠ "" then ⟨kObj, ⟨true, ""⟩, none, some buffer⟩
          else if env.prettyFails then ⟨kObj, ⟨true, ""⟩, none, some buffer⟩
          else
            let jq := env.pretty result
            if r.Score < minScore then
              ⟨kObj,
               ⟨false,
                kObj.Name ++ " score is " ++ toString r.Score ++
                  ", deployment minimum accepted score is " ++
                  toString minScore ++ "\nScan Result:\n" ++ jq⟩,
               none, some buffer⟩
            else ⟨kObj, ⟨true, ""⟩, none, some buffer⟩
        | _ => ⟨kObj, ⟨true, ""⟩, none, some buffer⟩

/-- `daemonSetsValidator.Validate` (pkg/webhook/daemonset.go): type-assert
`*appsv1.DaemonSet`, stamp `TypeMeta{Kind: "DaemonSet", APIVersion:
"apps/v1"}`, then the same pipeline; the denial message reads
`", daemonset minimum accepted score is "`. -/
def daemonSetsValidator.Validate (minScore : Int) (obj : K8sObject)
    (env : ScanEnv) : ValidateOut :=
  if obj.goType ≠ GoType.daemonSet then
    ⟨obj, ⟨true, ""⟩, none, none⟩
  else
    let kObj := { obj with typeMeta := ⟨"DaemonSet", "apps/v1"⟩ }
    if env.encodeFails then ⟨kObj, ⟨true, ""⟩, none, none⟩
    else if env.flushFails then ⟨kObj, ⟨true, ""⟩, none, none⟩
    else
      let buffer := serializeObj kObj
      match env.scan buffer with
      | Except.error _ => ⟨kObj, ⟨true, ""⟩, none, some buffer⟩
      | Except.ok result =>
        match result with
        | [r] =>
          if r.Error ≠ "" then ⟨kObj, ⟨true, ""⟩, none, some buffer⟩
          else if env.prettyFails then ⟨kObj, ⟨true, ""⟩, none, some buffer⟩
          else
            let jq := env.pretty result
            if r.Score < minScore then
              ⟨kObj,
               ⟨false,
                kObj.Name ++ " score is " ++ toString r.Score ++
                  ", daemonset minimum accepted score is " ++
                  toString minScore ++ "\nScan Result:\n" ++ jq⟩,
               none, some buffer⟩
            else ⟨kObj, ⟨true, ""⟩, none, some buffer⟩
        | _ => ⟨kObj, ⟨true, ""⟩, none, some buffer⟩

/-- Output of the legacy v1 `Validate`: it additionally returns the
kubewebhook v1 `stop` flag as its first Go return value. -/
structure ValidateOutV1 where
  obj : K8sObject
  stop : Bool
  result : ValidatorResult
  err : Option String
  scanned : Option SerializedResource
deriving Repr

/-- Legacy `deploymentValidator.Validate` (pkg/webhook/deployment.go,
kubewebhook v1 / kubesec v1): type-assert `*extensionsv1beta1.Deployment`,
stamp `TypeMeta{Kind: "Deployment", APIVersion: "apps/v1"}`, serialize
(the `writer.Flush()` error is discarded), scan with the v1 client which
returns a single result, and deny only when `result.Score < d.minScore`.
The `stop` flag is `true` only on the deny branch. -/
def deploymentValidatorV1.Validate (minScore : Int) (obj : K8sObject)
    (env : ScanEnv) : ValidateOutV1 :=
  if obj.goType ≠ GoType.deploymentExtV1beta1 then
    ⟨obj, false, ⟨true, ""⟩, none, none⟩
  else
    let kObj := { obj with typeMeta := ⟨"Deployment", "apps/v1"⟩ }
    if env.encodeFails then ⟨kObj, false, ⟨true, ""⟩, none, none⟩
    else
      let buffer := serializeObj kObj
      match env.scanV1 buffer with
      | Except.error _ => ⟨kObj, false, ⟨true, ""⟩, none, some buffer⟩
      | Except.ok result =>
        if result.Error ≠ "" then
          ⟨kObj, false, ⟨true, ""⟩, none, some buffer⟩
        else if env.prettyFails then
          ⟨kObj, false, ⟨true, ""⟩, none, some buffer⟩
        else
          let jq := env.prettyV1 result
          if result.Score < minScore then
            ⟨kObj, true,
             ⟨false,
              kObj.Name ++ " score is " ++ toString result.Score ++
                ", deployment minimum accepted score is " ++
                toString minScore ++ "\nScan Result:\n" ++ jq⟩,
             none, some buffer⟩
          else ⟨kObj, false, ⟨true, ""⟩, none, some buffer⟩

/-- Concrete Pod-typed object with unpopulated `TypeMeta`. -/
def objPod : K8sObject := ⟨GoType.pod, ⟨"", ""⟩, "p", "spec"⟩

/-- Concrete Deployment-typed object (apps/v1 concrete type). -/
def objDeployment : K8sObject := ⟨GoType.deployment, ⟨"", ""⟩, "d", "spec"⟩

/-- Concrete DaemonSet-typed object. -/
def objDaemonSet : K8sObject := ⟨GoType.daemonSet, ⟨"", ""⟩, "ds", "spec"⟩

/-- Concrete legacy Deployment-typed object (extensions/v1beta1). -/
def objDeploymentV1 : K8sObject :=
  ⟨GoType.deploymentExtV1beta1, ⟨"", ""⟩, "dv1", "spec"⟩

/-- Environment in which every collaborator succeeds and the scanner
returns exactly one result with score 0 and no embedded error. -/
def envOk : ScanEnv :=
  ⟨false, false, fun _ => Except.ok [⟨0, ""⟩], fun _ => Except.ok ⟨0, ""⟩,
   false, fun _ => "P", fun _ => "Q"⟩

/-- Environment in which the scan client fails at the transport level. -/
def envTransportErr : ScanEnv :=
  ⟨false, false, fun _ => Except.error "dial tcp: timeout",
   fun _ => Except.error "dial tcp: timeout", false, fun _ => "P",
   fun _ => "Q"⟩

/-- Environment in which the scan client returns an empty result list. -/
def envNoResults : ScanEnv :=
  ⟨false, false, fun _ => Except.ok [], fun _ => Except.ok ⟨0, ""⟩, false,
   fun _ => "P", fun _ => "Q"⟩

/-- Environment in which the single scan result carries an embedded error
string. -/
def envEmbeddedErr : ScanEnv :=
  ⟨false, false, fun _ => Except.ok [⟨0, "invalid input"⟩],
   fun _ => Except.ok ⟨0, "invalid input"⟩, false, fun _ => "P",
   fun _ => "Q"⟩

/-- C2: for every supported kind and inbound resource of that kind, if
serialization, scoring and pretty-printing succeed, the scorer returns
exactly one result with empty error field, and that score is ≥ the
configured minimum, then `Validate` returns `allowed = true`. Stated for
all four validators in the source. -/
theorem passing_score_allows (minScore : Int) (obj : K8sObject)
    (env : ScanEnv) (r : ScoreResult)
    (henc : env.encodeFails = false) (hfl : env.flushFails = false)
    (hs : ∀ b, env.scan b = Except.ok [r])
    (hs1 : ∀ b, env.scanV1 b = Except.ok r)
    (he : r.Error = "") (hpr : env.prettyFails = false)
    (hmin : minScore ≤ r.Score) :
    (podValidator.Validate minScore obj env).result.Valid = true ∧
    (deploymentValidator.Validate minScore obj env).result.Valid = true ∧
    (daemonSetsValidator.Validate minScore obj env).result.Valid = true ∧
    (deploymentValidatorV1.Validate minScore obj env).result.Valid = true := by
  have hnl : ¬ (r.Score < minScore) := not_lt.mpr hmin
  refine ⟨?_, ?_, ?_, ?_⟩
  · simp only [podValidator.Validate]
    split
    · rfl
    · simp [henc, hfl, hs, he, hpr, hnl]
  · simp only [deploymentValidator.Validate]
    split
    · rfl
    · simp [henc, hfl, hs, he, hpr, hnl]
  · simp only [daemonSetsValidator.Validate]
    split
    · rfl
    · simp [henc, hfl, hs, he, hpr, hnl]
  · simp only [deploymentValidatorV1.Validate]
    split
    · rfl
    · simp [henc, hs1, he, hpr, hnl]

/-- Witness for C2: a score of 0 against a minimum of 0 is allowed by all
four validators. -/
theorem passing_score_allows_wit :
    (podValidator.Validate 0 objPod envOk).result.Valid = true ∧
    (deploymentValidator.Validate 0 objDeployment envOk).result.Valid = true ∧
    (daemonSetsValidator.Validate 0 objDaemonSet envOk).result.Valid = true ∧
    (deploymentValidatorV1.Validate 0 objDeploymentV1 envOk).result.Valid
      = true := by
  have h := passing_score_allows 0 objPod envOk ⟨0, ""⟩ rfl rfl
    (fun _ => rfl) (fun _ => rfl) rfl rfl (by decide)
  have h2 := passing_score_allows 0 objDeployment envOk ⟨0, ""⟩ rfl rfl
    (fun _ => rfl) (fun _ => rfl) rfl rfl (by decide)
  have h3 := passing_score_allows 0 objDaemonSet envOk ⟨0, ""⟩ rfl rfl
    (fun _ => rfl) (fun _ => rfl) rfl rfl (by decide)
  have h4 := passing_score_allows 0 objDeploymentV1 envOk ⟨0, ""⟩ rfl rfl
    (fun _ => rfl) (fun _ => rfl) rfl rfl (by decide)
  exact ⟨h.1, h2.2.1, h3.2.2.1, h4.2.2.2⟩

/-- C3: for every supported kind and inbound resource, if the scan client
returns a transport error, `Validate` returns `allowed = true`, never a
denial, regardless of what the score would have been. -/
theorem transport_error_fails_open (minScore : Int) (obj : K8sObject)
    (env : ScanEnv) (e : String)
    (hs : ∀ b, env.scan b = Except.error e)
    (hs1 : ∀ b, env.scanV1 b = Except.error e) :
    (podValidator.Validate minScore obj env).result.Valid = true ∧
    (deploymentValidator.Validate minScore obj env).result.Valid = true ∧
    (daemonSetsValidator.Validate minScore obj env).result.Valid = true ∧
    (deploymentValidatorV1.Validate minScore obj env).result.Valid = true := by
  refine ⟨?_, ?_, ?_, ?_⟩
  · simp only [podValidator.Validate]
    split
    · rfl
    · cases henc : env.encodeFails <;> cases hfl : env.flushFails <;>
        simp [hs]
  · simp only [deploymentValidator.Validate]
    split
    · rfl
    · cases henc : env.encodeFails <;> cases hfl : env.flushFails <;>
        simp [hs]
  · simp only [daemonSetsValidator.Validate]
    split
    · rfl
    · cases henc : env.encodeFails <;> cases hfl : env.flushFails <;>
        simp [hs]
  · simp only [deploymentValidatorV1.Validate]
    split
    · rfl
    · cases henc : env.encodeFails <;> simp [hs1]

/-- Witness for C3: with a failing scanner even a below-minimum resource is
allowed by all four validators. -/
theorem transport_error_fails_open_wit :
    (podValidator.Validate 10 objPod envTransportErr).result.Valid = true ∧
    (deploymentValidator.Validate 10 objDeployment
      envTransportErr).result.Valid = true ∧
    (daemonSetsValidator.Validate 10 objDaemonSet
      envTransportErr).result.Valid = true ∧
    (deploymentValidatorV1.Validate 10 objDeploymentV1
      envTransportErr).result.Valid = true := by
  have h := transport_error_fails_open 10 objPod envTransportErr
    "dial tcp: timeout" (fun _ => rfl) (fun _ => rfl)
  have h2 := transport_error_fails_open 10 objDeployment envTransportErr
    "dial tcp: timeout" (fun _ => rfl) (fun _ => rfl)
  have h3 := transport_error_fails_open 10 objDaemonSet envTransportErr
    "dial tcp: timeout" (fun _ => rfl) (fun _ => rfl)
  have h4 := transport_error_fails_open 10 objDeploymentV1 envTransportErr
    "dial tcp: timeout" (fun _ => rfl) (fun _ => rfl)
  exact ⟨h.1, h2.2.1, h3.2.2.1, h4.2.2.2⟩

/-- C4: for every supported kind and inbound resource, if the scan client
returns a result list whose length is not exactly one, `Validate` returns
`allowed = true`. Stated for the three v2 validators; the legacy v1 client
returns a single result, not a list, so the condition cannot arise there. -/
theorem non_singleton_result_fails_open (minScore : Int) (obj : K8sObject)
    (env : ScanEnv) (rs : List ScoreResult)
    (hs : ∀ b, env.scan b = Except.ok rs)
    (hlen : rs.length ≠ 1) :
    (podValidator.Validate minScore obj env).result.Valid = true ∧
    (deploymentValidator.Validate minScore obj env).result.Valid = true ∧
    (daemonSetsValidator.Validate minScore obj env).result.Valid = true := by
  refine ⟨?_, ?_, ?_⟩
  · simp only [podValidator.Validate]
    split
    · rfl
    · cases henc : env.encodeFails <;> cases hfl : env.flushFails <;>
        rcases rs with _ | ⟨a, _ | ⟨b, u⟩⟩ <;> simp_all [hs]
  · simp only [deploymentValidator.Validate]
    split
    · rfl
    · cases henc : env.encodeFails <;> cases hfl : env.flushFails <;>
        rcases rs with _ | ⟨a, _ | ⟨b, u⟩⟩ <;> simp_all [hs]
  · simp only [daemonSetsValidator.Validate]
    split
    · rfl
    · cases henc : env.encodeFails <;> cases hfl : env.flushFails <;>
        rcases rs with _ | ⟨a, _ | ⟨b, u⟩⟩ <;> simp_all [hs]

/-- Witness for C4: an empty result list is allowed by all three v2
validators even with a high minimum. -/
theorem non_singleton_result_fails_open_wit :
    (podValidator.Validate 10 objPod envNoResults).result.Valid = true ∧
    (deploymentValidator.Validate 10 objDeployment
      envNoResults).result.Valid = true ∧
    (daemonSetsValidator.Validate 10 objDaemonSet
      envNoResults).result.Valid = true := by
  have h := non_singleton_result_fails_open 10 objPod envNoResults []
    (fun _ => rfl) (by decide)
  have h2 := non_singleton_result_fails_open 10 objDeployment envNoResults []
    (fun _ => rfl) (by decide)
  have h3 := non_singleton_result_fails_open 10 objDaemonSet envNoResults []
    (fun _ => rfl) (by decide)
  exact ⟨h.1, h2.2.1, h3.2.2⟩

/-- C6: for every supported kind and inbound resource, if the scanner's
returned result carries a non-empty embedded error string, `Validate`
returns `allowed = true` (fail-open), never a denial. -/
theorem embedded_error_fails_open (minScore : Int) (obj : K8sObject)
    (env : ScanEnv) (r : ScoreResult)
    (hs : ∀ b, env.scan b = Except.ok [r])
    (hs1 : ∀ b, env.scanV1 b = Except.ok r)
    (he : r.Error ≠ "") :
    (podValidator.Validate minScore obj env).result.Valid = true ∧
    (deploymentValidator.Validate minScore obj env).result.Valid = true ∧
    (daemonSetsValidator.Validate minScore obj env).result.Valid = true ∧
    (deploymentValidatorV1.Validate minScore obj env).result.Valid = true := by
  refine ⟨?_, ?_, ?_, ?_⟩
  · simp only [podValidator.Validate]
    split
    · rfl
    · cases henc : env.encodeFails <;> cases hfl : env.flushFails <;>
        simp [hs, he]
  · simp only [deploymentValidator.Validate]
    split
    · rfl
    · cases henc : env.encodeFails <;> cases hfl : env.flushFails <;>
        simp [hs, he]
  · simp only [daemonSetsValidator.Validate]
    split
    · rfl
    · cases henc : env.encodeFails <;> cases hfl : env.flushFails <;>
        simp [hs, he]
  · simp only [deploymentValidatorV1.Validate]
    split
    · rfl
    · cases henc : env.encodeFails <;> simp [hs1, he]

/-- Witness for C6: a result with embedded error string is allowed by all
four validators even with a high minimum. -/
theorem embedded_error_fails_open_wit :
    (podValidator.Validate 10 objPod envEmbeddedErr).result.Valid = true ∧
    (deploymentValidator.Validate 10 objDeployment
      envEmbeddedErr).result.Valid = true ∧
    (daemonSetsValidator.Validate 10 objDaemonSet
      envEmbeddedErr).result.Valid = true ∧
    (deploymentValidatorV1.Validate 10 objDeploymentV1
      envEmbeddedErr).result.Valid = true := by
  have h := embedded_error_fails_open 10 objPod envEmbeddedErr
    ⟨0, "invalid input"⟩ (fun _ => rfl) (fun _ => rfl) (by decide)
  have h2 := embedded_error_fails_open 10 objDeployment envEmbeddedErr
    ⟨0, "invalid input"⟩ (fun _ => rfl) (fun _ => rfl) (by decide)
  have h3 := embedded_error_fails_open 10 objDaemonSet envEmbeddedErr
    ⟨0, "invalid input"⟩ (fun _ => rfl) (fun _ => rfl) (by decide)
  have h4 := embedded_error_fails_open 10 objDeploymentV1 envEmbeddedErr
    ⟨0, "invalid input"⟩ (fun _ => rfl) (fun _ => rfl) (by decide)
  exact ⟨h.1, h2.2.1, h3.2.2.1, h4.2.2.2⟩

/-- Branch analysis for `podValidator.Validate`: the Go error return is
always nil, and a denial can only come from the full success path with a
below-minimum score. -/
lemma podValidator.pod_validate_cases (minScore : Int) (obj : K8sObject)
    (env : ScanEnv) :
    (podValidator.Validate minScore obj env).err = none ∧
    ((podValidator.Validate minScore obj env).result.Valid = false →
      obj.goType = GoType.pod ∧ env.encodeFails = false ∧
      env.flushFails = false ∧
      ∃ r, env.scan (serializeObj { obj with typeMeta := ⟨"Pod", "v1"⟩ })
            = Except.ok [r] ∧
        r.Error = "" ∧ env.prettyFails = false ∧ r.Score < minScore) := by
  simp only [podValidator.Validate]
  repeat' split
  all_goals simp_all

/-- Branch analysis for the v2 `deploymentValidator.Validate`. -/
lemma deploymentValidator.deployment_validate_cases (minScore : Int) (obj : K8sObject)
    (env : ScanEnv) :
    (deploymentValidator.Validate minScore obj env).err = none ∧
    ((deploymentValidator.Validate minScore obj env).result.Valid = false →
      obj.goType = GoType.deployment ∧ env.encodeFails = false ∧
      env.flushFails = false ∧
      ∃ r, env.scan
            (serializeObj { obj with typeMeta := ⟨"Deployment", "apps/v1"⟩ })
            = Except.ok [r] ∧
        r.Error = "" ∧ env.prettyFails = false ∧ r.Score < minScore) := by
  simp only [deploymentValidator.Validate]
  repeat' split
  all_goals simp_all

/-- Branch analysis for `daemonSetsValidator.Validate`. -/
lemma daemonSetsValidator.daemonSets_validate_cases (minScore : Int) (obj : K8sObject)
    (env : ScanEnv) :
    (daemonSetsValidator.Validate minScore obj env).err = none ∧
    ((daemonSetsValidator.Validate minScore obj env).result.Valid = false →
      obj.goType = GoType.daemonSet ∧ env.encodeFails = false ∧
      env.flushFails = false ∧
      ∃ r, env.scan
            (serializeObj { obj with typeMeta := ⟨"DaemonSet", "apps/v1"⟩ })
            = Except.ok [r] ∧
        r.Error = "" ∧ env.prettyFails = false ∧ r.Score < minScore) := by
  simp only [daemonSetsValidator.Validate]
  repeat' split
  all_goals simp_all

/-- Branch analysis for the legacy v1 `deploymentValidator.Validate`. -/
lemma deploymentValidatorV1.deploymentV1_validate_cases (minScore : Int)
    (obj : K8sObject) (env : ScanEnv) :
    (deploymentValidatorV1.Validate minScore obj env).err = none ∧
    ((deploymentValidatorV1.Validate minScore obj env).result.Valid = false →
      obj.goType = GoType.deploymentExtV1beta1 ∧ env.encodeFails = false ∧
      ∃ r, env.scanV1
            (serializeObj { obj with typeMeta := ⟨"Deployment", "apps/v1"⟩ })
            = Except.ok r ∧
        r.Error = "" ∧ env.prettyFails = false ∧ r.Score < minScore) := by
  simp only [deploymentValidatorV1.Validate]
  repeat' split
  all_goals simp_all

/-- Every verdict of `podValidator.Validate` is either a denial or the
allow-verdict with empty message. -/
lemma podValidator.pod_result_shape (minScore : Int) (obj : K8sObject)
    (env : ScanEnv) :
    (podValidator.Validate minScore obj env).result.Valid = false ∨
    (podValidator.Validate minScore obj env).result = ⟨true, ""⟩ := by
  simp only [podValidator.Validate]
  repeat' split
  all_goals simp_all

/-- Every verdict of the v2 `deploymentValidator.Validate` is either a
denial or the allow-verdict with empty message. -/
lemma deploymentValidator.deployment_result_shape (minScore : Int) (obj : K8sObject)
    (env : ScanEnv) :
    (deploymentValidator.Validate minScore obj env).result.Valid = false ∨
    (deploymentValidator.Validate minScore obj env).result = ⟨true, ""⟩ := by
  simp only [deploymentValidator.Validate]
  repeat' split
  all_goals simp_all

/-- Every verdict of `daemonSetsValidator.Validate` is either a denial or
the allow-verdict with empty message. -/
lemma daemonSetsValidator.daemonSets_result_shape (minScore : Int) (obj : K8sObject)
    (env : ScanEnv) :
    (daemonSetsValidator.Validate minScore obj env).result.Valid = false ∨
    (daemonSetsValidator.Validate minScore obj env).result = ⟨true, ""⟩ := by
  simp only [daemonSetsValidator.Validate]
  repeat' split
  all_goals simp_all

/-- Every verdict of the legacy v1 `deploymentValidator.Validate` is
either a denial or the allow-verdict with empty message. -/
lemma deploymentValidatorV1.deploymentV1_result_shape (minScore : Int) (obj : K8sObject)
    (env : ScanEnv) :
    (deploymentValidatorV1.Validate minScore obj env).result.Valid = false ∨
    (deploymentValidatorV1.Validate minScore obj env).result = ⟨true, ""⟩ := by
  simp only [deploymentValidatorV1.Validate]
  repeat' split
  all_goals simp_all

/-- C5: for every engine and every inbound object whose concrete type does
not match that engine's configured kind, `Validate` returns `allowed =
true` immediately — the object is untouched, the verdict is the empty
allow-verdict, the Go error is nil, and the scan client is never
invoked (`scanned = none`). -/
theorem kind_mismatch_allows_without_scan (minScore : Int)
    (obj : K8sObject) (env : ScanEnv) :
    (obj.goType ≠ GoType.pod →
      podValidator.Validate minScore obj env =
        ⟨obj, ⟨true, ""⟩, none, none⟩) ∧
    (obj.goType ≠ GoType.deployment →
      deploymentValidator.Validate minScore obj env =
        ⟨obj, ⟨true, ""⟩, none, none⟩) ∧
    (obj.goType ≠ GoType.daemonSet →
      daemonSetsValidator.Validate minScore obj env =
        ⟨obj, ⟨true, ""⟩, none, none⟩) ∧
    (obj.goType ≠ GoType.deploymentExtV1beta1 →
      deploymentValidatorV1.Validate minScore obj env =
        ⟨obj, false, ⟨true, ""⟩, none, none⟩) := by
  refine ⟨fun h => ?_, fun h => ?_, fun h => ?_, fun h => ?_⟩
  · simp only [podValidator.Validate]
    exact if_pos h
  · simp only [deploymentValidator.Validate]
    exact if_pos h
  · simp only [daemonSetsValidator.Validate]
    exact if_pos h
  · simp only [deploymentValidatorV1.Validate]
    exact if_pos h

/-- Witness for C5: a Deployment-typed object fed to the Pod-configured
engine (and mismatches for the other three engines) is allowed untouched
and unscanned. -/
theorem kind_mismatch_allows_without_scan_wit :
    podValidator.Validate 10 objDeployment envOk =
      ⟨objDeployment, ⟨true, ""⟩, none, none⟩ ∧
    deploymentValidator.Validate 10 objPod envOk =
      ⟨objPod, ⟨true, ""⟩, none, none⟩ ∧
    daemonSetsValidator.Validate 10 objPod envOk =
      ⟨objPod, ⟨true, ""⟩, none, none⟩ ∧
    deploymentValidatorV1.Validate 10 objPod envOk =
      ⟨objPod, false, ⟨true, ""⟩, none, none⟩ := by
  have h := kind_mismatch_allows_without_scan 10 objDeployment envOk
  have h2 := kind_mismatch_allows_without_scan 10 objPod envOk
  exact ⟨h.1 (by decide), h2.2.1 (by decide), h2.2.2.1 (by decide),
    h2.2.2.2 (by decide)⟩

/-- C7: for every inbound object and every outcome of the collaborators,
`Validate` returns a nil Go error, and a denial can only arise from the
fully successful pipeline with a below-minimum score — every
infrastructure failure (serialization, flush, transport, wrong result
count, embedded error string, pretty-printing) yields `allowed = true`. -/
theorem validate_never_errors (minScore : Int) (obj : K8sObject)
    (env : ScanEnv) :
    ((podValidator.Validate minScore obj env).err = none ∧
      ((podValidator.Validate minScore obj env).result.Valid = false →
        obj.goType = GoType.pod ∧ env.encodeFails = false ∧
        env.flushFails = false ∧
        ∃ r, env.scan (serializeObj { obj with typeMeta := ⟨"Pod", "v1"⟩ })
              = Except.ok [r] ∧
          r.Error = "" ∧ env.prettyFails = false ∧ r.Score < minScore)) ∧
    ((deploymentValidator.Validate minScore obj env).err = none ∧
      ((deploymentValidator.Validate minScore obj env).result.Valid = false →
        obj.goType = GoType.deployment ∧ env.encodeFails = false ∧
        env.flushFails = false ∧
        ∃ r, env.scan
              (serializeObj
                { obj with typeMeta := ⟨"Deployment", "apps/v1"⟩ })
              = Except.ok [r] ∧
          r.Error = "" ∧ env.prettyFails = false ∧ r.Score < minScore)) ∧
    ((daemonSetsValidator.Validate minScore obj env).err = none ∧
      ((daemonSetsValidator.Validate minScore obj env).result.Valid = false →
        obj.goType = GoType.daemonSet ∧ env.encodeFails = false ∧
        env.flushFails = false ∧
        ∃ r, env.scan
              (serializeObj
                { obj with typeMeta := ⟨"DaemonSet", "apps/v1"⟩ })
              = Except.ok [r] ∧
          r.Error = "" ∧ env.prettyFails = false ∧ r.Score < minScore)) ∧
    ((deploymentValidatorV1.Validate minScore obj env).err = none ∧
      ((deploymentValidatorV1.Validate minScore obj env).result.Valid
          = false →
        obj.goType = GoType.deploymentExtV1beta1 ∧ env.encodeFails = false ∧
        ∃ r, env.scanV1
              (serializeObj
                { obj with typeMeta := ⟨"Deployment", "apps/v1"⟩ })
              = Except.ok r ∧
          r.Error = "" ∧ env.prettyFails = false ∧ r.Score < minScore)) :=
  ⟨podValidator.pod_validate_cases minScore obj env,
   deploymentValidator.deployment_validate_cases minScore obj env,
   daemonSetsValidator.daemonSets_validate_cases minScore obj env,
   deploymentValidatorV1.deploymentV1_validate_cases minScore obj env⟩

/-- Witness for C7: at a concrete low-scoring input the error return is
nil for all four validators. -/
theorem validate_never_errors_wit :
    (podValidator.Validate 1 objPod envOk).err = none ∧
    (deploymentValidator.Validate 1 objDeployment envOk).err = none ∧
    (daemonSetsValidator.Validate 1 objDaemonSet envOk).err = none ∧
    (deploymentValidatorV1.Validate 1 objDeploymentV1 envOk).err = none := by
  have h := validate_never_errors 1 objPod envOk
  have h2 := validate_never_errors 1 objDeployment envOk
  have h3 := validate_never_errors 1 objDaemonSet envOk
  have h4 := validate_never_errors 1 objDeploymentV1 envOk
  exact ⟨h.1.1, h2.2.1.1, h3.2.2.1.1, h4.2.2.2.1⟩

/-- C10: every allow-verdict of every validator carries an empty message
string, so the admission response cannot distinguish a passing resource
from one whose check could not run. -/
theorem allow_verdict_empty_message (minScore : Int) (obj : K8sObject)
    (env : ScanEnv) :
    ((podValidator.Validate minScore obj env).result.Valid = true →
      (podValidator.Validate minScore obj env).result.Message = "") ∧
    ((deploymentValidator.Validate minScore obj env).result.Valid = true →
      (deploymentValidator.Validate minScore obj env).result.Message = "") ∧
    ((daemonSetsValidator.Validate minScore obj env).result.Valid = true →
      (daemonSetsValidator.Validate minScore obj env).result.Message
        = "") ∧
    ((deploymentValidatorV1.Validate minScore obj env).result.Valid = true →
      (deploymentValidatorV1.Validate minScore obj env).result.Message
        = "") := by
  refine ⟨fun h => ?_, fun h => ?_, fun h => ?_, fun h => ?_⟩
  · rcases podValidator.pod_result_shape minScore obj env with hf | he
    · exact absurd h (by simp [hf])
    · simp [he]
  · rcases deploymentValidator.deployment_result_shape minScore obj env with hf | he
    · exact absurd h (by simp [hf])
    · simp [he]
  · rcases daemonSetsValidator.daemonSets_result_shape minScore obj env with hf | he
    · exact absurd h (by simp [hf])
    · simp [he]
  · rcases deploymentValidatorV1.deploymentV1_result_shape minScore obj env with hf | he
    · exact absurd h (by simp [hf])
    · simp [he]

/-- Witness for C10: concrete allow-verdicts (passing score for the pod
engine, transport error for the others) all carry an empty message. -/
theorem allow_verdict_empty_message_wit :
    (podValidator.Validate 0 objPod envOk).result.Message = "" ∧
    (deploymentValidator.Validate 10 objDeployment
      envTransportErr).result.Message = "" ∧
    (daemonSetsValidator.Validate 10 objDaemonSet
      envNoResults).result.Message = "" ∧
    (deploymentValidatorV1.Validate 10 objDeploymentV1
      envEmbeddedErr).result.Message = "" := by
  have h := allow_verdict_empty_message 0 objPod envOk
  have h2 := allow_verdict_empty_message 10 objDeployment envTransportErr
  have h3 := allow_verdict_empty_message 10 objDaemonSet envNoResults
  have h4 := allow_verdict_empty_message 10 objDeploymentV1 envEmbeddedErr
  exact ⟨h.1 (by decide), h2.2.1 (by decide), h3.2.2.1 (by decide),
    h4.2.2.2 (by decide)⟩

/-- C9: for every supported kind and inbound resource passing the kind
check, the validator stamps the kind's canonical `Kind` / `APIVersion`
pair before serializing, so the document handed to the scan client
carries those headers regardless of what the inbound object arrived
with. -/
theorem stamps_kind_and_apiversion (minScore : Int) (obj : K8sObject)
    (env : ScanEnv) :
    (obj.goType = GoType.pod → env.encodeFails = false →
      env.flushFails = false →
      ∃ s, (podValidator.Validate minScore obj env).scanned = some s ∧
        s.kind = "Pod" ∧ s.apiVersion = "v1") ∧
    (obj.goType = GoType.deployment → env.encodeFails = false →
      env.flushFails = false →
      ∃ s, (deploymentValidator.Validate minScore obj env).scanned
          = some s ∧
        s.kind = "Deployment" ∧ s.apiVersion = "apps/v1") ∧
    (obj.goType = GoType.daemonSet → env.encodeFails = false →
      env.flushFails = false →
      ∃ s, (daemonSetsValidator.Validate minScore obj env).scanned
          = some s ∧
        s.kind = "DaemonSet" ∧ s.apiVersion = "apps/v1") ∧
    (obj.goType = GoType.deploymentExtV1beta1 → env.encodeFails = false →
      ∃ s, (deploymentValidatorV1.Validate minScore obj env).scanned
          = some s ∧
        s.kind = "Deployment" ∧ s.apiVersion = "apps/v1") := by
  refine ⟨fun hg henc hfl => ?_, fun hg henc hfl => ?_,
    fun hg henc hfl => ?_, fun hg henc => ?_⟩
  · refine ⟨serializeObj { obj with typeMeta := ⟨"Pod", "v1"⟩ }, ?_,
      rfl, rfl⟩
    simp only [podValidator.Validate]
    repeat' split
    all_goals simp_all
  · refine ⟨serializeObj { obj with typeMeta := ⟨"Deployment", "apps/v1"⟩ },
      ?_, rfl, rfl⟩
    simp only [deploymentValidator.Validate]
    repeat' split
    all_goals simp_all
  · refine ⟨serializeObj { obj with typeMeta := ⟨"DaemonSet", "apps/v1"⟩ },
      ?_, rfl, rfl⟩
    simp only [daemonSetsValidator.Validate]
    repeat' split
    all_goals simp_all
  · refine ⟨serializeObj { obj with typeMeta := ⟨"Deployment", "apps/v1"⟩ },
      ?_, rfl, rfl⟩
    simp only [deploymentValidatorV1.Validate]
    repeat' split
    all_goals simp_all

/-- Witness for C9: concrete objects that arrive with empty `TypeMeta` are
scanned with the canonical headers stamped. -/
theorem stamps_kind_and_apiversion_wit :
    (∃ s, (podValidator.Validate 0 objPod envOk).scanned = some s ∧
      s.kind = "Pod" ∧ s.apiVersion = "v1") ∧
    (∃ s, (deploymentValidator.Validate 0 objDeployment envOk).scanned
        = some s ∧
      s.kind = "Deployment" ∧ s.apiVersion = "apps/v1") ∧
    (∃ s, (daemonSetsValidator.Validate 0 objDaemonSet envOk).scanned
        = some s ∧
      s.kind = "DaemonSet" ∧ s.apiVersion = "apps/v1") ∧
    (∃ s, (deploymentValidatorV1.Validate 0 objDeploymentV1 envOk).scanned
        = some s ∧
      s.kind = "Deployment" ∧ s.apiVersion = "apps/v1") := by
  have h := stamps_kind_and_apiversion 0 objPod envOk
  have h2 := stamps_kind_and_apiversion 0 objDeployment envOk
  have h3 := stamps_kind_and_apiversion 0 objDaemonSet envOk
  have h4 := stamps_kind_and_apiversion 0 objDeploymentV1 envOk
  exact ⟨h.1 rfl rfl rfl, h2.2.1 rfl rfl rfl, h3.2.2.1 rfl rfl rfl,
    h4.2.2.2 rfl rfl⟩

/-- Counterexample for C8 as stated: `Validate` mutates the inbound
object in place — a Pod that arrives with empty `TypeMeta` leaves
`Validate` with `TypeMeta{Kind: "Pod", APIVersion: "v1"}` stamped onto
it, so not every field is unchanged. -/
theorem validate_mutates_typemeta_cex :
    (podValidator.Validate 0 objPod envOk).obj.typeMeta ≠ objPod.typeMeta ∧
    (podValidator.Validate 0 objPod envOk).obj.typeMeta = ⟨"Pod", "v1"⟩ := by
  decide

/-- C8 (amended): `Validate` leaves every field of the inbound object
unchanged except `TypeMeta`, which is overwritten with the kind's
canonical values exactly when the type assertion succeeds (on a kind
mismatch the object is returned untouched). -/
theorem validate_mutation_frame (minScore : Int) (obj : K8sObject)
    (env : ScanEnv) :
    (podValidator.Validate minScore obj env).obj =
      (if obj.goType = GoType.pod then
        { obj with typeMeta := ⟨"Pod", "v1"⟩ } else obj) ∧
    (deploymentValidator.Validate minScore obj env).obj =
      (if obj.goType = GoType.deployment then
        { obj with typeMeta := ⟨"Deployment", "apps/v1"⟩ } else obj) ∧
    (daemonSetsValidator.Validate minScore obj env).obj =
      (if obj.goType = GoType.daemonSet then
        { obj with typeMeta := ⟨"DaemonSet", "apps/v1"⟩ } else obj) ∧
    (deploymentValidatorV1.Validate minScore obj env).obj =
      (if obj.goType = GoType.deploymentExtV1beta1 then
        { obj with typeMeta := ⟨"Deployment", "apps/v1"⟩ } else obj) := by
  refine ⟨?_, ?_, ?_, ?_⟩
  · simp only [podValidator.Validate]
    repeat' split
    all_goals simp_all
  · simp only [deploymentValidator.Validate]
    repeat' split
    all_goals simp_all
  · simp only [daemonSetsValidator.Validate]
    repeat' split
    all_goals simp_all
  · simp only [deploymentValidatorV1.Validate]
    repeat' split
    all_goals simp_all

/-- Counterexample for C1 as stated: on a below-minimum score the denial
message is not `"<name> score is <score>, minimum accepted score is
<minScore>"` followed by a newline and the pretty-printed score result.
The pod engine inserts a `"Scan Result:\n"` header before the
pretty-printed result, and the daemonset engine additionally words the
clause `"daemonset minimum accepted score is"`. Here the pretty-printed
score result is `"P"`. -/
theorem low_score_denial_message_cex :
    (podValidator.Validate 1 objPod envOk).result.Valid = false ∧
    (podValidator.Validate 1 objPod envOk).result.Message =
      "p score is 0, minimum accepted score is 1\nScan Result:\nP" ∧
    (podValidator.Validate 1 objPod envOk).result.Message ≠
      "p score is 0, minimum accepted score is 1\nP" ∧
    (daemonSetsValidator.Validate 1 objDaemonSet envOk).result.Valid
      = false ∧
    (daemonSetsValidator.Validate 1 objDaemonSet envOk).result.Message =
      "ds score is 0, daemonset minimum accepted score is 1\nScan Result:\nP"
      ∧
    (daemonSetsValidator.Validate 1 objDaemonSet envOk).result.Message ≠
      "ds score is 0, minimum accepted score is 1\nP" := by
  decide

/-- C1 (amended): for every supported kind and inbound resource of that
kind, if serialization, scoring and pretty-printing succeed, the scorer
returns exactly one result with empty error field, and that score is
strictly below the configured minimum, then `Validate` denies with the
message `"<name> score is <score>, <kind-word>minimum accepted score is
<minScore>\nScan Result:\n<pretty-printed score result>"`, where the
kind-word is empty for the pod engine, `"deployment "` for the deployment
engine and `"daemonset "` for the daemonset engine. -/
theorem low_score_denial_message (minScore : Int) (obj : K8sObject)
    (env : ScanEnv) (r : ScoreResult)
    (henc : env.encodeFails = false) (hfl : env.flushFails = false)
    (hs : ∀ b, env.scan b = Except.ok [r])
    (he : r.Error = "") (hpr : env.prettyFails = false)
    (hlt : r.Score < minScore) :
    (obj.goType = GoType.pod →
      (podValidator.Validate minScore obj env).result =
        ⟨false, obj.Name ++ " score is " ++ toString r.Score ++
          ", minimum accepted score is " ++ toString minScore ++
          "\nScan Result:\n" ++ env.pretty [r]⟩) ∧
    (obj.goType = GoType.deployment →
      (deploymentValidator.Validate minScore obj env).result =
        ⟨false, obj.Name ++ " score is " ++ toString r.Score ++
          ", deployment minimum accepted score is " ++ toString minScore ++
          "\nScan Result:\n" ++ env.pretty [r]⟩) ∧
    (obj.goType = GoType.daemonSet →
      (daemonSetsValidator.Validate minScore obj env).result =
        ⟨false, obj.Name ++ " score is " ++ toString r.Score ++
          ", daemonset minimum accepted score is " ++ toString minScore ++
          "\nScan Result:\n" ++ env.pretty [r]⟩) := by
  refine ⟨fun hg => ?_, fun hg => ?_, fun hg => ?_⟩
  · simp [podValidator.Validate, hg, henc, hfl, hs, he, hpr, hlt]
  · simp [deploymentValidator.Validate, hg, henc, hfl, hs, he, hpr, hlt]
  · simp [daemonSetsValidator.Validate, hg, henc, hfl, hs, he, hpr, hlt]

/-- Witness for C1 (amended): concrete below-minimum resources of each
kind produce exactly the amended denial messages. -/
theorem low_score_denial_message_wit :
    (podValidator.Validate 1 objPod envOk).result =
      ⟨false, "p score is 0, minimum accepted score is 1\nScan Result:\nP"⟩
      ∧
    (deploymentValidator.Validate 1 objDeployment envOk).result =
      ⟨false,
       "d score is 0, deployment minimum accepted score is 1\nScan Result:\nP"⟩
      ∧
    (daemonSetsValidator.Validate 1 objDaemonSet envOk).result =
      ⟨false,
       "ds score is 0, daemonset minimum accepted score is 1\nScan Result:\nP"⟩
      := by
  have h := low_score_denial_message 1 objPod envOk ⟨0, ""⟩ rfl rfl
    (fun _ => rfl) rfl rfl (by decide)
  have h2 := low_score_denial_message 1 objDeployment envOk ⟨0, ""⟩ rfl rfl
    (fun _ => rfl) rfl rfl (by decide)
  have h3 := low_score_denial_message 1 objDaemonSet envOk ⟨0, ""⟩ rfl rfl
    (fun _ => rfl) rfl rfl (by decide)
  refine ⟨?_, ?_, ?_⟩
  · rw [h.1 rfl]; decide
  · rw [h2.2.1 rfl]; decide
  · rw [h3.2.2 rfl]; decide
